import Mathlib

/-!
A shallow embedding of the qdrant operator module
(`src/server/src/operators/qdrant_operator.rs`).

Effectful Rust functions are embedded as pure functions from their inputs,
plus the backend responses they consume, to the backend requests they emit
and the value or error they return.  Machine integers are modelled as `Nat`
with explicit wrapping (`% 2 ^ 64`, `% 2 ^ 32`) where Rust release-mode
arithmetic or an `as` cast can wrap or truncate.  A Rust panic (`unwrap` or
`expect` on a missing value) is modelled by the `panics` constructor of
`Outcome`, or by `Option.none` for the group-id decoding helpers.
-/

namespace QdrantOperator

/-- One lowercase hexadecimal digit character for a value below 16. -/
def hexDigitChar (d : Nat) : Char :=
  if d = 0 then '0' else if d = 1 then '1' else if d = 2 then '2' else if d = 3 then '3'
  else if d = 4 then '4' else if d = 5 then '5' else if d = 6 then '6' else if d = 7 then '7'
  else if d = 8 then '8' else if d = 9 then '9' else if d = 10 then 'a' else if d = 11 then 'b'
  else if d = 12 then 'c' else if d = 13 then 'd' else if d = 14 then 'e' else 'f'

/-- Numeric value of a lowercase hexadecimal digit character. -/
def hexCharVal (c : Char) : Option Nat :=
  if c = '0' then some 0 else if c = '1' then some 1 else if c = '2' then some 2
  else if c = '3' then some 3 else if c = '4' then some 4 else if c = '5' then some 5
  else if c = '6' then some 6 else if c = '7' then some 7 else if c = '8' then some 8
  else if c = '9' then some 9 else if c = 'a' then some 10 else if c = 'b' then some 11
  else if c = 'c' then some 12 else if c = 'd' then some 13 else if c = 'e' then some 14
  else if c = 'f' then some 15 else none

/-- Big-endian hexadecimal rendering of `v` on exactly `w` digits. -/
def toHexChars : Nat → Nat → List Char
  | 0, _ => []
  | w + 1, v => toHexChars w (v / 16) ++ [hexDigitChar (v % 16)]

/-- Left-to-right hexadecimal parsing with an accumulator. -/
def fromHexAux : List Char → Nat → Option Nat
  | [], acc => some acc
  | c :: cs, acc =>
    match hexCharVal c with
    | none => none
    | some d => fromHexAux cs (acc * 16 + d)

/-- Split a character list on a separator character; mirrors Rust
`str::split` on a one-character pattern (an empty input yields one empty
segment, and a trailing separator yields a trailing empty segment). -/
def splitOnChar (sep : Char) : List Char → List (List Char)
  | [] => [[]]
  | c :: rest =>
    let r := splitOnChar sep rest
    if c = sep then [] :: r else (c :: r.headD []) :: r.tail

/-- Rust `s.split(',').collect_vec()` on a `String`. -/
def splitComma (s : String) : List String :=
  (splitOnChar ',' s.data).map fun cs => String.mk cs

/-- Whether `need` occurs at the head of `hay`. -/
def charsLead : List Char → List Char → Bool
  | _, [] => true
  | [], _ :: _ => false
  | h :: hs, n :: ns => h = n && charsLead hs ns

/-- Whether `need` occurs contiguously anywhere inside `hay`. -/
def charsContain (hay need : List Char) : Bool :=
  match hay with
  | [] => need.isEmpty
  | _ :: t => charsLead hay need || charsContain t need

/-- Rust `str::contains` on a string pattern. -/
def strContains (s pat : String) : Bool :=
  charsContain s.data pat.data

/-- A UUID is a 128-bit value (the representation used by the `uuid`
crate); the backend and the payload always carry its string encoding. -/
abbrev Uuid := Fin (2 ^ 128)

/-- Rust `uuid::Uuid::default()` / `uuid::Uuid::nil()`: the all-zero UUID. -/
def uuidNil : Uuid := ⟨0, by norm_num⟩

/-- The character sequence of the hyphenated rendering of a 128-bit
value: 8-4-4-4-12 lowercase hexadecimal digits. -/
def uuidStringChars (v : Nat) : List Char :=
  (toHexChars 32 v).take 8
    ++ '-' :: ((toHexChars 32 v).drop 8).take 4
    ++ '-' :: ((toHexChars 32 v).drop 12).take 4
    ++ '-' :: ((toHexChars 32 v).drop 16).take 4
    ++ '-' :: (toHexChars 32 v).drop 20

/-- Rust `uuid::Uuid::to_string()`: lowercase hyphenated form
`xxxxxxxx-xxxx-xxxx-xxxx-xxxxxxxxxxxx` (8-4-4-4-12 hexadecimal digits). -/
def uuidToString (u : Uuid) : String :=
  String.mk (uuidStringChars u.val)

/-- Parsing of the five hyphen-separated segments of a UUID string. -/
def parseUuidSegs (segs : List (List Char)) : Option Uuid :=
  match segs with
  | [a, b, c, d, e] =>
    if a.length = 8 ∧ b.length = 4 ∧ c.length = 4 ∧ d.length = 4 ∧ e.length = 12 then
      (fromHexAux (a ++ b ++ c ++ d ++ e) 0).map fun v =>
        ⟨v % 2 ^ 128, Nat.mod_lt _ (by norm_num)⟩
    else none
  | _ => none

/-- Rust `str::parse::<uuid::Uuid>()`, modelled on the lowercase hyphenated
format that `uuidToString` emits (the only format this codebase produces);
any other shape fails to parse. -/
def parseUuid (s : String) : Option Uuid :=
  parseUuidSegs (splitOnChar '-' s.data)

/-- A qdrant payload value (`qdrant_client::qdrant::Value`), restricted to
the JSON shapes this module reads or writes. -/
inductive QValue where
  | null
  | str (s : String)
  | int (n : Int)
  | list (xs : List QValue)
  | obj (kvs : List (String × QValue))

/-- Rust `Value::as_str()`. -/
def QValue.asStr : QValue → Option String
  | .str s => some s
  | _ => none

/-- Rust `Value::iter_list()` (as the underlying list of values). -/
def QValue.iterList : QValue → Option (List QValue)
  | .list xs => some xs
  | _ => none

/-- A point payload: a finite map from field names to values, as an
association list (first binding wins, mirroring `HashMap` lookup). -/
def Payload := List (String × QValue)

/-- Association-list lookup, mirroring `HashMap::get`. -/
def assocGet {α : Type} (l : List (String × α)) (k : String) : Option α :=
  (l.find? fun p => p.1 == k).map fun p => p.2

/-- `HashMap::get` on a payload. -/
def Payload.get (p : Payload) (k : String) : Option QValue :=
  assocGet p k

/-- `crate::errors::ServiceError`, restricted to the variant this module
constructs. -/
inductive ServiceError where
  | BadRequest (msg : String)
deriving DecidableEq

/-- `crate::errors::DefaultError`. -/
structure DefaultError where
  message : String
deriving DecidableEq

/-- Outcome of a fallible Rust call site that can also panic: `panics`
models a Rust panic (`unwrap` / `expect` on a missing value), `err` an
`Err` return, `ok` an `Ok` return. -/
inductive Outcome (ε α : Type) where
  | panics (msg : String)
  | err (e : ε)
  | ok (a : α)

/-- `ServerDatasetConfiguration`, restricted to the fields this module
reads (the struct itself lives outside `src/`; the field set is taken from
its uses in the source). -/
structure ServerDatasetConfiguration where
  QDRANT_COLLECTION_NAME : String
  QDRANT_URL : String
  QDRANT_API_KEY : String
  EMBEDDING_SIZE : Nat
deriving DecidableEq

/-- The backend filter predicate (`qdrant_client::qdrant::Filter`), an
external collaborator assembled outside this module; carried through
opaquely. -/
inductive Filter where
  | mk
deriving DecidableEq

/-- Wrapping 64-bit subtraction (`a - b` on `u64`, release semantics),
for `a, b < 2 ^ 64`. -/
def sub64 (a b : Nat) : Nat := (a + 2 ^ 64 - b) % 2 ^ 64

/-- Wrapping 64-bit multiplication (`a * b` on `u64`, release semantics). -/
def mul64 (a b : Nat) : Nat := a * b % 2 ^ 64

/-- Rust `page as u32`: truncation of a `u64` to 32 bits. -/
def cast32 (n : Nat) : Nat := n % 2 ^ 32

/-- Wrapping 32-bit multiplication (`a * b` on `u32`, release semantics). -/
def mul32 (a b : Nat) : Nat := a * b % 2 ^ 32

/-- `qdrant_client::qdrant::Distance`, restricted to the variant used. -/
inductive Distance where
  | cosine
deriving DecidableEq

/-- `qdrant_client::qdrant::BinaryQuantization`. -/
structure BinaryQuantization where
  always_ram : Option Bool
deriving DecidableEq

/-- `quantization_config::Quantization`, restricted to the variant used. -/
inductive Quantization where
  | binary (b : BinaryQuantization)
deriving DecidableEq

/-- `qdrant_client::qdrant::QuantizationConfig`. -/
structure QuantizationConfig where
  quantization : Option Quantization
deriving DecidableEq

/-- `qdrant_client::qdrant::VectorParams`, restricted to the fields the
source sets. -/
structure VectorParams where
  size : Nat
  distance : Distance
  hnsw_config : Option Unit
  quantization_config : Option QuantizationConfig
  on_disk : Option Bool
deriving DecidableEq

/-- `qdrant_client::qdrant::HnswConfigDiff`, restricted to the fields the
source sets. -/
structure HnswConfigDiff where
  payload_m : Option Nat
  m : Option Nat
deriving DecidableEq

/-- `qdrant_client::qdrant::SparseIndexConfig`, restricted to the fields
the source sets. -/
structure SparseIndexConfig where
  on_disk : Option Bool
deriving DecidableEq

/-- `qdrant_client::qdrant::SparseVectorParams`. -/
structure SparseVectorParams where
  index : Option SparseIndexConfig
deriving DecidableEq

/-- `qdrant_client::qdrant::FieldType`, restricted to the variants used. -/
inductive FieldType where
  | text
  | keyword
  | integer
deriving DecidableEq

/-- The dense vector-space parameter map built inside
`create_new_qdrant_collection_query` (source lines 102-153): five named
spaces, cosine distance; the (shared) binary-quantization configuration is
attached to `384_vectors`, `768_vectors`, `1024_vectors` and
`1536_vectors` when `quantize` is true, while `512_vectors` carries a
hard-coded `None`. -/
def collectionVectorParamsMap (quantize : Bool) : List (String × VectorParams) :=
  let quantization_config : Option QuantizationConfig :=
    if quantize then some ⟨some (.binary ⟨some true⟩)⟩ else none
  [ ("384_vectors", ⟨384, .cosine, none, quantization_config, none⟩),
    ("512_vectors", ⟨512, .cosine, none, none, none⟩),
    ("768_vectors", ⟨768, .cosine, none, quantization_config, none⟩),
    ("1024_vectors", ⟨1024, .cosine, none, quantization_config, none⟩),
    ("1536_vectors", ⟨1536, .cosine, none, quantization_config, none⟩) ]

/-- `qdrant_client::qdrant::CreateCollection`, restricted to the fields
the source sets. -/
structure CreateCollectionReq where
  collection_name : String
  vectors_config : List (String × VectorParams)
  hnsw_config : Option HnswConfigDiff
  sparse_vectors_config : List (String × SparseVectorParams)
deriving DecidableEq

/-- A backend request emitted by the collection bootstrapper. -/
inductive CollectionRequest where
  | collectionInfo (name : String)
  | createCollection (req : CreateCollectionReq)
  | createFieldIndex (collection : String) (field : String) (ftype : FieldType)
deriving DecidableEq

/-- The backend reply to `collection_info`: `result` is the optional
collection description (its content is irrelevant here, only presence). -/
structure CollectionInfoResponse where
  result : Option Unit
deriving DecidableEq

/-- The six field indexes created after the collection, in source order. -/
def collectionFieldIndexes : List (String × FieldType) :=
  [ ("link", .text), ("tag_set", .text), ("dataset_id", .keyword),
    ("metadata", .keyword), ("time_stamp", .integer), ("group_ids", .keyword) ]

/-- Sequential `create_field_index` calls with early exit on the first
failure, returning the requests issued and the final result. -/
def createIndexLoop (collection : String) (resp : String → Except Unit Unit) :
    List (String × FieldType) → List CollectionRequest × Except ServiceError Unit
  | [] => ([], .ok ())
  | (f, t) :: rest =>
    match resp f with
    | .error _ =>
      ([.createFieldIndex collection f t], .error (.BadRequest "Failed to create index"))
    | .ok _ =>
      let (tr, res) := createIndexLoop collection resp rest
      (.createFieldIndex collection f t :: tr, res)

/-- `create_new_qdrant_collection_query` (source lines 46-242), as a
function of the backend replies: the `collection_info` reply, the
`create_collection` reply (an error carries the backend message string),
and the per-field `create_field_index` replies.  Returns the requests
issued, in order, and the call's result. -/
def create_new_qdrant_collection_query (qdrant_collection : String) (quantize : Bool)
    (info_response : Except Unit CollectionInfoResponse)
    (create_response : Except String Unit)
    (index_response : String → Except Unit Unit) :
    List CollectionRequest × Except ServiceError Unit :=
  let infoReq := CollectionRequest.collectionInfo qdrant_collection
  let reported : Bool :=
    match info_response with
    | .ok info => info.result.isSome
    | .error _ => false
  if reported then
    ([infoReq], .error (.BadRequest "Collection already exists"))
  else
    let createReq : CreateCollectionReq :=
      { collection_name := qdrant_collection
        vectors_config := collectionVectorParamsMap quantize
        hnsw_config := some ⟨some 16, some 0⟩
        sparse_vectors_config := [("sparse_vectors", ⟨some ⟨some false⟩⟩)] }
    match create_response with
    | .error msg =>
      ([infoReq, .createCollection createReq],
        .error (.BadRequest
          (if strContains msg "already exists" then "Collection already exists"
           else "Failed to create Collection")))
    | .ok _ =>
      let (tr, res) := createIndexLoop qdrant_collection index_response collectionFieldIndexes
      (infoReq :: .createCollection createReq :: tr, res)

/-- `ChunkMetadata` (declared in `data/models.rs`, outside `src/`),
restricted to the fields this module reads.  Field types are inferred from
their uses in the source; `time_stamp` is modelled by the epoch-seconds
integer its `.timestamp()` call produces.  Modelled from the spec: the
defaults taken by `unwrap_or_default()` for fields whose concrete types
live outside `src/` — an absent `metadata` defaults to an empty object and
an absent `time_stamp` to the zero/epoch timestamp, as the spec states. -/
structure ChunkMetadata where
  tag_set : Option String
  link : Option String
  metadata : Option QValue
  time_stamp : Option Int
  dataset_id : Uuid

/-- Default for an absent `metadata` field.  Modelled from the spec:
"absent metadata becomes an empty object". -/
def metadataDefault : QValue := .obj []

/-- Default for an absent `time_stamp` field, after `.timestamp()`.
Modelled from the spec: "absent timestamp becomes the zero/epoch value". -/
def timeStampDefault : Int := 0

/-- The payload built by `create_new_qdrant_point_query` (source lines
259-268): comma-splitting of `tag_set` and `link` after defaulting to the
empty string, defaulted `metadata` and `time_stamp`, the dataset id as a
string, and the group ids (defaulted to the empty list) as strings. -/
def createPointPayload (chunk_metadata : ChunkMetadata) (group_ids : Option (List Uuid)) :
    Payload :=
  [ ("tag_set", .list ((splitComma (chunk_metadata.tag_set.getD "")).map .str)),
    ("link", .list ((splitComma (chunk_metadata.link.getD "")).map .str)),
    ("metadata", chunk_metadata.metadata.getD metadataDefault),
    ("time_stamp", .int (chunk_metadata.time_stamp.getD timeStampDefault)),
    ("dataset_id", .str (uuidToString chunk_metadata.dataset_id)),
    ("group_ids", .list (((group_ids.getD []).map fun g => uuidToString g).map .str)) ]

/-- The dense vector-space name selected from a vector length (the `match
embedding_vector.len()` repeated at source lines 270-277, 373-382,
626-637, 732-743, 828-839 and 909-920); `none` models the
`Invalid embedding vector size` early return. -/
def vectorNameOfLen (n : Nat) : Option String :=
  match n with
  | 384 => some "384_vectors"
  | 512 => some "512_vectors"
  | 768 => some "768_vectors"
  | 1024 => some "1024_vectors"
  | 1536 => some "1536_vectors"
  | _ => none

/-- The five supported dense vector lengths. -/
def supportedSizes : List Nat := [384, 512, 768, 1024, 1536]

/-- A named vector value as sent to the backend. -/
inductive QdrantVector where
  | dense (v : List Float)
  | sparse (v : List (Nat × Float))

/-- `VectorType` (source lines 603-607). -/
inductive VectorType where
  | sparse (v : List (Nat × Float))
  | dense (v : List Float)

/-- An `upsert_points` / `upsert_points_blocking` request: one point with
its named vectors and payload; `blocking` distinguishes the two calls. -/
structure UpsertRequest where
  collection : String
  pointId : String
  vectors : List (String × QdrantVector)
  payload : Payload
  blocking : Bool

/-- A `get_points` request (`get_points(collection, None, &ids,
false.into(), true.into(), None)`): vectors excluded, payload included. -/
structure GetPointsReq where
  collection : String
  ids : List String
  with_vectors : Bool
  with_payload : Bool
deriving DecidableEq

/-- A point as returned by `get_points`, restricted to the field the
source reads. -/
structure RetrievedPoint where
  payload : Payload

/-- `create_new_qdrant_point_query` (source lines 245-296): builds the
payload, routes the dense vector by its length, and returns the blocking
upsert request it sends, or the `Invalid embedding vector size` error
without emitting any request. -/
def create_new_qdrant_point_query (point_id : Uuid) (embedding_vector : List Float)
    (chunk_metadata : ChunkMetadata) (splade_vector : List (Nat × Float))
    (group_ids : Option (List Uuid)) (config : ServerDatasetConfiguration) :
    Except ServiceError UpsertRequest :=
  let payload := createPointPayload chunk_metadata group_ids
  match vectorNameOfLen embedding_vector.length with
  | none => .error (.BadRequest "Invalid embedding vector size")
  | some vector_name =>
    .ok { collection := config.QDRANT_COLLECTION_NAME
          pointId := uuidToString point_id
          vectors := [(vector_name, .dense embedding_vector),
                      ("sparse_vectors", .sparse splade_vector)]
          payload := payload
          blocking := true }

/-- The write performed by `update_qdrant_point_query`: either a
(non-blocking) upsert replacing vectors and payload, or a payload-only
overwrite. -/
inductive UpdateAction where
  | upsert (req : UpsertRequest)
  | overwritePayload (collection : String) (ids : List String) (payload : Payload)

/-- `update_qdrant_point_query` (source lines 299-421), as a function of
the `get_points` backend reply.  The first component is the point fetch
request, which the source always issues before anything else; the second
is the resulting write action or error.  Payload construction follows the
source: with new metadata, a fresh payload (group ids from the argument,
else from the fetched point, else empty); without new metadata, the
fetched point's fields verbatim (string defaults for absent fields); with
neither, the `No metadata points found` error. -/
def update_qdrant_point_query (metadata : Option ChunkMetadata) (point_id : Uuid)
    (updated_vector : Option (List Float)) (group_ids : Option (List Uuid))
    (dataset_id : Uuid) (splade_vector : List (Nat × Float))
    (config : ServerDatasetConfiguration)
    (fetch_response : Except Unit (List RetrievedPoint)) :
    GetPointsReq × Except ServiceError UpdateAction :=
  let qdrant_point_id := [uuidToString point_id]
  let fetchReq : GetPointsReq :=
    ⟨config.QDRANT_COLLECTION_NAME, qdrant_point_id, false, true⟩
  (fetchReq,
    match fetch_response with
    | .error _ => .error (.BadRequest "Failed to search_points from qdrant")
    | .ok current_point_vec =>
      let current_point := current_point_vec.head?
      let payloadRes : Except ServiceError Payload :=
        match metadata with
        | some metadata =>
          let gv : QValue :=
            match group_ids with
            | some gs => .list ((gs.map fun id => uuidToString id).map .str)
            | none =>
              match current_point with
              | some cp => (cp.payload.get "group_ids").getD (.list [])
              | none => .list []
          .ok [ ("tag_set", .list ((splitComma (metadata.tag_set.getD "")).map .str)),
                ("link", .list ((splitComma (metadata.link.getD "")).map .str)),
                ("metadata", metadata.metadata.getD metadataDefault),
                ("time_stamp", .int (metadata.time_stamp.getD timeStampDefault)),
                ("dataset_id", .str (uuidToString dataset_id)),
                ("group_ids", gv) ]
        | none =>
          match current_point with
          | some cp =>
            .ok [ ("tag_set", (cp.payload.get "tag_set").getD (.str "")),
                  ("link", (cp.payload.get "link").getD (.str "")),
                  ("metadata", (cp.payload.get "metadata").getD (.str "")),
                  ("time_stamp", (cp.payload.get "time_stamp").getD (.str "")),
                  ("dataset_id", (cp.payload.get "dataset_id").getD (.str "")),
                  ("group_ids", (cp.payload.get "group_ids").getD (.list [])) ]
          | none => .error (.BadRequest "No metadata points found")
      match payloadRes with
      | .error e => .error e
      | .ok payload =>
        match updated_vector with
        | some updated_vector =>
          match vectorNameOfLen updated_vector.length with
          | none => .error (.BadRequest "Invalid embedding vector size")
          | some vector_name =>
            .ok (.upsert
              { collection := config.QDRANT_COLLECTION_NAME
                pointId := uuidToString point_id
                vectors := [(vector_name, .dense updated_vector),
                            ("sparse_vectors", .sparse splade_vector)]
                payload := payload
                blocking := false })
        | none =>
          .ok (.overwritePayload config.QDRANT_COLLECTION_NAME qdrant_point_id payload))

/-- The fresh payload built by `update_qdrant_point_query` when new
metadata is supplied and the fetched point is absent (source lines
331-356 with `current_point = None`): the metadata fields with the insert
defaulting rules, and group ids from the explicitly supplied argument
when given, else the empty list. -/
def updateFreshPayload (metadata : ChunkMetadata) (group_ids : Option (List Uuid))
    (dataset_id : Uuid) : Payload :=
  [ ("tag_set", .list ((splitComma (metadata.tag_set.getD "")).map .str)),
    ("link", .list ((splitComma (metadata.link.getD "")).map .str)),
    ("metadata", metadata.metadata.getD metadataDefault),
    ("time_stamp", .int (metadata.time_stamp.getD timeStampDefault)),
    ("dataset_id", .str (uuidToString dataset_id)),
    ("group_ids",
      match group_ids with
      | some gs => .list ((gs.map fun id => uuidToString id).map .str)
      | none => .list []) ]

/-- Decoding of one `group_ids` payload entry (source lines 467-472):
`id.as_str().unwrap_or("").parse::<uuid::Uuid>().unwrap_or_default()` —
a non-string or unparseable entry silently coerces to the nil UUID. -/
def decodeUuid (v : QValue) : Uuid :=
  (parseUuid (v.asStr.getD "")).getD uuidNil

/-- The group-id list computed by `add_bookmark_to_qdrant_query` (source
lines 460-478): decode the existing entries if the field is present and
append the new id (duplicates are not filtered); an absent field yields
the singleton.  `none` models the panic of `.iter_list().unwrap()` on a
present but non-list field. -/
def addBookmarkGroupIds (p : Payload) (group_id : Uuid) : Option (List Uuid) :=
  match p.get "group_ids" with
  | some v => (v.iterList).map fun xs => xs.map decodeUuid ++ [group_id]
  | none => some [group_id]

/-- The group-id list computed by `remove_bookmark_from_qdrant_query`
(source lines 547-565): decode the existing entries if the field is
present and retain those different from the target id; an absent field
yields the empty list.  `none` models the panic of
`.iter_list().unwrap()` on a present but non-list field. -/
def removeBookmarkGroupIds (p : Payload) (group_id : Uuid) : Option (List Uuid) :=
  match p.get "group_ids" with
  | some v => (v.iterList).map fun xs => (xs.map decodeUuid).filter fun id => id != group_id
  | none => some []

/-- The payload written back by both bookmark operations (source lines
480-487 and 567-574): the fetched point's fields verbatim with
empty-string defaults, and the new group-id list as strings. -/
def bookmarkNewPayload (p : Payload) (group_ids : List Uuid) : Payload :=
  [ ("tag_set", (p.get "tag_set").getD (.str "")),
    ("link", (p.get "link").getD (.str "")),
    ("metadata", (p.get "metadata").getD (.str "")),
    ("time_stamp", (p.get "time_stamp").getD (.str "")),
    ("dataset_id", (p.get "dataset_id").getD (.str "")),
    ("group_ids", .list ((group_ids.map fun g => uuidToString g).map .str)) ]

/-- `add_bookmark_to_qdrant_query` (source lines 424-508), as a function
of the `get_points` backend reply.  The first component is the point fetch
request (always issued first); the second is the payload-overwrite the
call performs, an error, or a panic. -/
def add_bookmark_to_qdrant_query (point_id : Uuid) (group_id : Uuid)
    (config : ServerDatasetConfiguration)
    (fetch_response : Except Unit (List RetrievedPoint)) :
    GetPointsReq × Outcome DefaultError (String × List String × Payload) :=
  let qdrant_point_id := [uuidToString point_id]
  let fetchReq : GetPointsReq :=
    ⟨config.QDRANT_COLLECTION_NAME, qdrant_point_id, false, true⟩
  (fetchReq,
    match fetch_response with
    | .error _ => .err ⟨"Failed to search_points from qdrant"⟩
    | .ok current_point_vec =>
      match current_point_vec.head? with
      | none => .err ⟨"Failed getting vec.first chunk from qdrant"⟩
      | some current_point =>
        match addBookmarkGroupIds current_point.payload group_id with
        | none => .panics "called Option::unwrap on a None value"
        | some group_ids =>
          .ok (config.QDRANT_COLLECTION_NAME, qdrant_point_id,
            bookmarkNewPayload current_point.payload group_ids))

/-- `remove_bookmark_from_qdrant_query` (source lines 511-595), as a
function of the `get_points` backend reply, analogous to
`add_bookmark_to_qdrant_query`. -/
def remove_bookmark_from_qdrant_query (point_id : Uuid) (group_id : Uuid)
    (config : ServerDatasetConfiguration)
    (fetch_response : Except Unit (List RetrievedPoint)) :
    GetPointsReq × Outcome DefaultError (String × List String × Payload) :=
  let qdrant_point_id := [uuidToString point_id]
  let fetchReq : GetPointsReq :=
    ⟨config.QDRANT_COLLECTION_NAME, qdrant_point_id, false, true⟩
  (fetchReq,
    match fetch_response with
    | .error _ => .err ⟨"Failed to search_points from qdrant"⟩
    | .ok current_point_vec =>
      match current_point_vec.head? with
      | none => .err ⟨"Failed getting vec.first chunk from qdrant"⟩
      | some current_point =>
        match removeBookmarkGroupIds current_point.payload group_id with
        | none => .panics "called Option::unwrap on a None value"
        | some group_ids =>
          .ok (config.QDRANT_COLLECTION_NAME, qdrant_point_id,
            bookmarkNewPayload current_point.payload group_ids))

/-- The vector-space name selected by the search dispatchers from a
`VectorType` (source lines 624-638 and 730-744): sparse queries target the
sparse space; dense queries are routed by length or rejected. -/
def vectorNameOf : VectorType → Except DefaultError String
  | .sparse _ => .ok "sparse_vectors"
  | .dense embedding_vector =>
    match vectorNameOfLen embedding_vector.length with
    | some name => .ok name
    | none => .error ⟨"Invalid embedding vector size"⟩

/-- A `search_points` request, restricted to the fields the source sets. -/
structure SearchPointsReq where
  collection_name : String
  vector : List Float
  sparse_indices : Option (List Nat)
  vector_name : Option String
  limit : Nat
  score_threshold : Option Float
  offset : Option Nat
  filter : Option Filter

/-- `search_qdrant_query` (source lines 717-801), up to the backend call:
the `search_points` request it sends, or the routing error (no request is
emitted on the error path).  `limit` is a `u64` passed through; the offset
is the wrapping `u64` computation `(page - 1) * 10`. -/
def search_qdrant_query (page : Nat) (filter : Filter) (limit : Nat)
    (score_threshold : Option Float) (vector : VectorType)
    (config : ServerDatasetConfiguration) :
    Except DefaultError SearchPointsReq :=
  match vectorNameOf vector with
  | .error e => .error e
  | .ok vector_name =>
    match vector with
    | .dense embedding_vector =>
      .ok { collection_name := config.QDRANT_COLLECTION_NAME
            vector := embedding_vector
            sparse_indices := none
            vector_name := some vector_name
            limit := limit
            score_threshold := score_threshold
            offset := some (mul64 (sub64 page 1) 10)
            filter := some filter }
    | .sparse sparse_vector =>
      .ok { collection_name := config.QDRANT_COLLECTION_NAME
            vector := sparse_vector.map fun p => p.2
            sparse_indices := some (sparse_vector.map fun p => p.1)
            vector_name := some vector_name
            limit := limit
            score_threshold := score_threshold
            offset := some (mul64 (sub64 page 1) 10)
            filter := some filter }

/-- A `search_groups` request, restricted to the fields the source sets.
`SearchPointGroups` has no offset field. -/
structure SearchPointGroupsReq where
  collection_name : String
  vector : List Float
  sparse_indices : Option (List Nat)
  vector_name : Option String
  limit : Nat
  score_threshold : Option Float
  filter : Option Filter
  group_by : String
  group_size : Nat

/-- `search_over_groups_query` (source lines 610-682), up to the backend
call: the `search_groups` request it sends, or the routing error (no
request is emitted on the error path).  The requested limit is the `u32`
computation `limit * page as u32` — `page` (a `u64`) is truncated to 32
bits by the cast and the product wraps on 32 bits. -/
def search_over_groups_query (page : Nat) (filter : Filter) (limit : Nat)
    (score_threshold : Option Float) (group_size : Nat) (vector : VectorType)
    (config : ServerDatasetConfiguration) :
    Except DefaultError SearchPointGroupsReq :=
  match vectorNameOf vector with
  | .error e => .error e
  | .ok vector_name =>
    match vector with
    | .dense embedding_vector =>
      .ok { collection_name := config.QDRANT_COLLECTION_NAME
            vector := embedding_vector
            sparse_indices := none
            vector_name := some vector_name
            limit := mul32 limit (cast32 page)
            score_threshold := score_threshold
            filter := some filter
            group_by := "group_ids"
            group_size := group_size }
    | .sparse sparse_vector =>
      .ok { collection_name := config.QDRANT_COLLECTION_NAME
            vector := sparse_vector.map fun p => p.2
            sparse_indices := some (sparse_vector.map fun p => p.1)
            vector_name := some vector_name
            limit := mul32 limit (cast32 page)
            score_threshold := score_threshold
            filter := some filter
            group_by := "group_ids"
            group_size := group_size }

/-- A `recommend` request, restricted to the fields the source sets to
meaningful values (`using` is rendered as `usingVector`). -/
structure RecommendPointsReq where
  collection_name : String
  positive : List String
  negative : List String
  filter : Option Filter
  limit : Nat
  usingVector : Option String
deriving DecidableEq

/-- `recommend_qdrant_query` (source lines 804-882), up to the backend
call: the `recommend` request it sends — the vector space is selected from
the configured embedding size, not from an input vector — or the routing
error (no request is emitted on the error path).  The filter argument
stands for the output of the external `assemble_qdrant_filter`
collaborator. -/
def recommend_qdrant_query (positive_ids : List Uuid) (negative_ids : List Uuid)
    (filter : Filter) (limit : Nat) (config : ServerDatasetConfiguration) :
    Except DefaultError RecommendPointsReq :=
  match vectorNameOfLen config.EMBEDDING_SIZE with
  | none => .error ⟨"Invalid embedding vector size"⟩
  | some vector_name =>
    .ok { collection_name := config.QDRANT_COLLECTION_NAME
          positive := positive_ids.map fun id => uuidToString id
          negative := negative_ids.map fun id => uuidToString id
          filter := some filter
          limit := limit
          usingVector := some vector_name }

/-- A `recommend_groups` request, restricted to the fields the source sets
to meaningful values. -/
structure RecommendPointGroupsReq where
  collection_name : String
  positive : List String
  negative : List String
  filter : Option Filter
  limit : Nat
  usingVector : Option String
  group_by : String
  group_size : Nat
deriving DecidableEq

/-- `recommend_qdrant_groups_query` (source lines 884-943), up to the
backend call: the `recommend_groups` request it sends, the routing error
(from the configured embedding size), or the panic of
`limit.try_into().unwrap()` when the `u64` limit exceeds `u32::MAX`. -/
def recommend_qdrant_groups_query (positive_ids : List Uuid) (negative_ids : List Uuid)
    (filter : Filter) (limit : Nat) (group_size : Nat)
    (config : ServerDatasetConfiguration) :
    Outcome DefaultError RecommendPointGroupsReq :=
  match vectorNameOfLen config.EMBEDDING_SIZE with
  | none => .err ⟨"Invalid embedding vector size"⟩
  | some vector_name =>
    if limit < 2 ^ 32 then
      .ok { collection_name := config.QDRANT_COLLECTION_NAME
            positive := positive_ids.map fun id => uuidToString id
            negative := negative_ids.map fun id => uuidToString id
            filter := some filter
            limit := limit
            usingVector := some vector_name
            group_by := "group_ids"
            group_size := group_size }
    else .panics "called Result::unwrap() on an Err value"

/-- `point_id::PointIdOptions`: a backend point identifier is either a
string UUID or a number. -/
inductive PointIdOptions where
  | uuid (s : String)
  | num (n : Nat)

/-- `qdrant_client::qdrant::PointId`. -/
structure PointId where
  point_id_options : Option PointIdOptions

/-- A scored point in a backend search reply, restricted to the fields
the source reads. -/
structure ScoredPoint where
  id : Option PointId
  score : Float

/-- `group_id::Kind`: a backend group identifier value. -/
inductive GroupIdKind where
  | stringValue (s : String)
  | integerValue (n : Int)

/-- A backend group identifier (`GroupId`). -/
structure GroupId where
  kind : Option GroupIdKind

/-- One group of hits in a grouped backend reply. -/
structure PointGroup where
  id : Option GroupId
  hits : List ScoredPoint

/-- The `GroupsResult` carried by grouped replies. -/
structure GroupsResult where
  groups : List PointGroup

/-- A grouped backend reply; `result` is optional at the protobuf level. -/
structure GroupsResponse where
  result : Option GroupsResult

/-- The `CountResult` carried by a `count` reply. -/
structure CountResult where
  count : Nat

/-- A `count` backend reply; `result` is optional at the protobuf level. -/
structure CountResponse where
  result : Option CountResult

/-- `SearchResult` (declared in `search_operator.rs`, outside `src/`),
restricted to the fields this module constructs. -/
structure SearchResult where
  score : Float
  point_id : Uuid

/-- `GroupSearchResults` (source lines 597-601). -/
structure GroupSearchResults where
  group_id : Uuid
  hits : List SearchResult

/-- Hit normalization shared by the grouped dispatchers (source lines
697-707 and 967-977): string identifiers are parsed (a hit whose id fails
to parse is dropped), numeric identifiers are dropped. -/
def normalizeHits (hits : List ScoredPoint) : List SearchResult :=
  hits.filterMap fun hit =>
    match hit.id with
    | none => none
    | some pid =>
      match pid.point_id_options with
      | none => none
      | some (.uuid id) => (parseUuid id).map fun u => ⟨hit.score, u⟩
      | some (.num _) => none

/-- Group normalization shared by the grouped dispatchers (source lines
684-711 and 954-981): a group whose identifier is not a string value is
dropped; a string identifier that fails to parse coerces to the nil
UUID. -/
def normalizeGroups (groups : List PointGroup) : List GroupSearchResults :=
  groups.filterMap fun point =>
    match point.id with
    | none => none
    | some gid =>
      match gid.kind with
      | none => none
      | some (.stringValue id) => some ⟨(parseUuid id).getD uuidNil, normalizeHits point.hits⟩
      | some (.integerValue _) => none

/-- The response-handling tail of `search_over_groups_query` (source lines
677-713): a backend error is mapped to `Failed to search points on
Qdrant`; a reply whose optional `result` is absent hits
`data.result.unwrap()` and panics; otherwise the groups are normalized and
returned. -/
def search_over_groups_response (call_result : Except Unit GroupsResponse) :
    Outcome DefaultError (List GroupSearchResults) :=
  match call_result with
  | .error _ => .err ⟨"Failed to search points on Qdrant"⟩
  | .ok data =>
    match data.result with
    | none => .panics "called Option::unwrap() on a None value"
    | some r => .ok (normalizeGroups r.groups)

/-- The response-handling tail of `recommend_qdrant_groups_query` (source
lines 945-982): a backend error is mapped to the recommendation-failed
message; a reply whose optional `result` is absent hits
`data.result.unwrap()` and panics; otherwise the groups are normalized and
returned. -/
def recommend_qdrant_groups_response (call_result : Except Unit GroupsResponse) :
    Outcome DefaultError (List GroupSearchResults) :=
  match call_result with
  | .error _ =>
    .err ⟨"Failed to recommend points from qdrant. Your are likely providing an invalid point id."⟩
  | .ok data =>
    match data.result with
    | none => .panics "called Option::unwrap() on a None value"
    | some r => .ok (normalizeGroups r.groups)

/-- `get_point_count_qdrant_query` (source lines 986-1012), as a function
of the `count` backend reply: a backend error is mapped to `Failed to
count points from qdrant`; a reply whose optional `result` is absent hits
`data.result.expect(..)` and panics; otherwise the count is returned. -/
def get_point_count_qdrant_query (call_result : Except Unit CountResponse) :
    Outcome DefaultError Nat :=
  match call_result with
  | .error _ => .err ⟨"Failed to count points from qdrant"⟩
  | .ok data =>
    match data.result with
    | none => .panics "Failed to get result from qdrant"
    | some r => .ok r.count

/-- A concrete dataset configuration used for concrete evaluations. -/
def cfgEx : ServerDatasetConfiguration := ⟨"collection", "url", "key", 384⟩

/-- A concrete chunk metadata value with every optional field absent. -/
def chunkMetaEx : ChunkMetadata := ⟨none, none, none, none, uuidNil⟩

/-- A concrete UUID. -/
def uuidA : Uuid := ⟨5, by norm_num⟩

/-- A second concrete UUID, different from `uuidA`. -/
def uuidB : Uuid := ⟨7, by norm_num⟩

/-- A concrete fetched payload whose `group_ids` field holds the string
form of `uuidA`. -/
def payloadEx : Payload := [("group_ids", .list [.str (uuidToString uuidA)])]

/-! Helper lemmas: the hexadecimal codec round-trips, the splitter
behaves on separator-free segments, and the wrapping arithmetic agrees
with exact arithmetic below the wrap bound. -/

theorem hexCharVal_hexDigitChar : ∀ d < 16, hexCharVal (hexDigitChar d) = some d := by
  decide

theorem hexDigitChar_ne_dash : ∀ d < 16, hexDigitChar d ≠ '-' := by
  decide

theorem toHexChars_length (w v : Nat) : (toHexChars w v).length = w := by
  induction w generalizing v with
  | zero => rfl
  | succ w ih => simp [toHexChars, ih]

theorem mem_toHexChars_ne_dash (w v : Nat) (c : Char) (hc : c ∈ toHexChars w v) :
    c ≠ '-' := by
  induction w generalizing v with
  | zero => simp [toHexChars] at hc
  | succ w ih =>
    simp only [toHexChars, List.mem_append, List.mem_singleton] at hc
    rcases hc with hc | rfl
    · exact ih _ hc
    · exact hexDigitChar_ne_dash _ (Nat.mod_lt _ (by norm_num))

theorem fromHexAux_append (xs ys : List Char) (acc : Nat) :
    fromHexAux (xs ++ ys) acc =
      (fromHexAux xs acc).bind fun a => fromHexAux ys a := by
  induction xs generalizing acc with
  | nil => rfl
  | cons c cs ih =>
    simp only [List.cons_append, fromHexAux]
    cases hexCharVal c with
    | none => rfl
    | some d => exact ih _

theorem fromHexAux_toHexChars (w v acc : Nat) (hv : v < 16 ^ w) :
    fromHexAux (toHexChars w v) acc = some (acc * 16 ^ w + v) := by
  induction w generalizing v acc with
  | zero =>
    interval_cases v
    simp [toHexChars, fromHexAux]
  | succ w ih =>
    have hdiv : v / 16 < 16 ^ w := by
      rw [Nat.div_lt_iff_lt_mul (by norm_num)]
      calc v < 16 ^ (w + 1) := hv
        _ = 16 ^ w * 16 := by rw [pow_succ]
    rw [toHexChars, fromHexAux_append, ih _ _ hdiv]
    show fromHexAux [hexDigitChar (v % 16)] (acc * 16 ^ w + v / 16) = _
    rw [fromHexAux, hexCharVal_hexDigitChar (v % 16) (Nat.mod_lt _ (by norm_num))]
    show some ((acc * 16 ^ w + v / 16) * 16 + v % 16) = _
    congr 1
    have hdm : 16 * (v / 16) + v % 16 = v := Nat.div_add_mod v 16
    have harr : (acc * 16 ^ w + v / 16) * 16 + v % 16
        = acc * (16 ^ w * 16) + (16 * (v / 16) + v % 16) := by ring
    rw [harr, hdm, pow_succ]

theorem splitOnChar_ne_nil (sep : Char) (xs : List Char) : splitOnChar sep xs ≠ [] := by
  cases xs with
  | nil => simp [splitOnChar]
  | cons c rest =>
    simp only [splitOnChar]
    split <;> simp

theorem splitOnChar_no_sep (sep : Char) (a : List Char) (ha : sep ∉ a) :
    splitOnChar sep a = [a] := by
  induction a with
  | nil => rfl
  | cons c cs ih =>
    have hc : c ≠ sep := fun h => ha (h ▸ List.mem_cons_self c cs)
    have hcs : sep ∉ cs := fun h => ha (List.mem_cons_of_mem _ h)
    simp [splitOnChar, hc, ih hcs]

theorem splitOnChar_append_sep (sep : Char) (a b : List Char) (ha : sep ∉ a) :
    splitOnChar sep (a ++ sep :: b) = a :: splitOnChar sep b := by
  induction a with
  | nil => simp [splitOnChar]
  | cons c cs ih =>
    have hc : c ≠ sep := fun h => ha (h ▸ List.mem_cons_self c cs)
    have hcs : sep ∉ cs := fun h => ha (List.mem_cons_of_mem _ h)
    simp [splitOnChar, hc, ih hcs]

set_option maxHeartbeats 1600000 in
theorem parseUuid_uuidToString (u : Uuid) : parseUuid (uuidToString u) = some u := by
  have hlen : (toHexChars 32 u.val).length = 32 := toHexChars_length 32 u.val
  have hnd : ∀ c ∈ toHexChars 32 u.val, c ≠ '-' := fun c hc =>
    mem_toHexChars_ne_dash 32 u.val c hc
  have nd1 : '-' ∉ (toHexChars 32 u.val).take 8 := fun hmem =>
    hnd _ (List.take_subset _ _ hmem) rfl
  have nd2 : '-' ∉ ((toHexChars 32 u.val).drop 8).take 4 := fun hmem =>
    hnd _ (List.drop_subset _ _ (List.take_subset _ _ hmem)) rfl
  have nd3 : '-' ∉ ((toHexChars 32 u.val).drop 12).take 4 := fun hmem =>
    hnd _ (List.drop_subset _ _ (List.take_subset _ _ hmem)) rfl
  have nd4 : '-' ∉ ((toHexChars 32 u.val).drop 16).take 4 := fun hmem =>
    hnd _ (List.drop_subset _ _ (List.take_subset _ _ hmem)) rfl
  have nd5 : '-' ∉ (toHexChars 32 u.val).drop 20 := fun hmem =>
    hnd _ (List.drop_subset _ _ hmem) rfl
  have hsplit : splitOnChar '-' (uuidStringChars u.val)
      = [(toHexChars 32 u.val).take 8, ((toHexChars 32 u.val).drop 8).take 4,
         ((toHexChars 32 u.val).drop 12).take 4, ((toHexChars 32 u.val).drop 16).take 4,
         (toHexChars 32 u.val).drop 20] := by
    unfold uuidStringChars
    simp only [List.cons_append, List.append_assoc]
    rw [splitOnChar_append_sep _ _ _ nd1, splitOnChar_append_sep _ _ _ nd2,
      splitOnChar_append_sep _ _ _ nd3, splitOnChar_append_sep _ _ _ nd4,
      splitOnChar_no_sep _ _ nd5]
  have hjoin : (toHexChars 32 u.val).take 8 ++ ((toHexChars 32 u.val).drop 8).take 4
        ++ ((toHexChars 32 u.val).drop 12).take 4 ++ ((toHexChars 32 u.val).drop 16).take 4
        ++ (toHexChars 32 u.val).drop 20 = toHexChars 32 u.val := by
    have e1 : ((toHexChars 32 u.val).drop 16).take 4 ++ (toHexChars 32 u.val).drop 20
        = (toHexChars 32 u.val).drop 16 := by
      have := List.take_append_drop 4 ((toHexChars 32 u.val).drop 16)
      rwa [List.drop_drop, show 4 + 16 = 20 from rfl] at this
    have e2 : ((toHexChars 32 u.val).drop 12).take 4 ++ (toHexChars 32 u.val).drop 16
        = (toHexChars 32 u.val).drop 12 := by
      have := List.take_append_drop 4 ((toHexChars 32 u.val).drop 12)
      rwa [List.drop_drop, show 4 + 12 = 16 from rfl] at this
    have e3 : ((toHexChars 32 u.val).drop 8).take 4 ++ (toHexChars 32 u.val).drop 12
        = (toHexChars 32 u.val).drop 8 := by
      have := List.take_append_drop 4 ((toHexChars 32 u.val).drop 8)
      rwa [List.drop_drop, show 4 + 8 = 12 from rfl] at this
    have e4 : (toHexChars 32 u.val).take 8 ++ (toHexChars 32 u.val).drop 8
        = toHexChars 32 u.val := List.take_append_drop 8 (toHexChars 32 u.val)
    simp only [List.append_assoc]
    rw [e1, e2, e3, e4]
  have hval : fromHexAux (toHexChars 32 u.val) 0 = some u.val := by
    have hb : u.val < 16 ^ 32 := by
      have := u.isLt
      have h16 : (16 : Nat) ^ 32 = 2 ^ 128 := by norm_num
      omega
    rw [fromHexAux_toHexChars 32 u.val 0 hb]
    simp
  have hl1 : ((toHexChars 32 u.val).take 8).length = 8 := by
    simp [List.length_take, hlen]
  have hl2 : (((toHexChars 32 u.val).drop 8).take 4).length = 4 := by
    simp [List.length_take, List.length_drop, hlen]
  have hl3 : (((toHexChars 32 u.val).drop 12).take 4).length = 4 := by
    simp [List.length_take, List.length_drop, hlen]
  have hl4 : (((toHexChars 32 u.val).drop 16).take 4).length = 4 := by
    simp [List.length_take, List.length_drop, hlen]
  have hl5 : ((toHexChars 32 u.val).drop 20).length = 12 := by
    simp [List.length_drop, hlen]
  unfold parseUuid uuidToString
  rw [show (String.mk (uuidStringChars u.val)).data = uuidStringChars u.val from rfl, hsplit]
  rw [parseUuidSegs, if_pos ⟨hl1, hl2, hl3, hl4, hl5⟩, hjoin, hval, Option.map_some']
  exact congrArg some (Fin.ext (Nat.mod_eq_of_lt u.isLt))

theorem sub64_exact (page : Nat) (h1 : 1 ≤ page) (h2 : page < 2 ^ 64) :
    sub64 page 1 = page - 1 := by
  unfold sub64
  have h64 : (2 : Nat) ^ 64 = 18446744073709551616 := by norm_num
  omega

theorem mul64_exact (a b : Nat) (h : a * b < 2 ^ 64) : mul64 a b = a * b :=
  Nat.mod_eq_of_lt h

theorem mul32_cast32_exact (l p : Nat) (hp : p < 2 ^ 32) (hlp : l * p < 2 ^ 32) :
    mul32 l (cast32 p) = l * p := by
  unfold mul32 cast32
  rw [Nat.mod_eq_of_lt hp, Nat.mod_eq_of_lt hlp]

theorem decodeUuid_str_round (x : Uuid) : decodeUuid (.str (uuidToString x)) = x := by
  simp [decodeUuid, QValue.asStr, parseUuid_uuidToString]

/-- C1 counterexample: the claim states that with `quantize = true` the
binary quantization configuration is attached to exactly `512_vectors`,
`768_vectors`, `1024_vectors` and `1536_vectors` and that `384_vectors`
carries none.  On the code it is the other way around for the two smallest
spaces: `384_vectors` carries the binary quantization configuration
(`always_ram = true`) and `512_vectors` carries a hard-coded `None`. -/
theorem claim_C1_counterexample :
    (assocGet (collectionVectorParamsMap true) "384_vectors").map
        (fun p => p.quantization_config)
      = some (some ⟨some (.binary ⟨some true⟩)⟩)
    ∧ (assocGet (collectionVectorParamsMap true) "512_vectors").map
        (fun p => p.quantization_config)
      = some none :=
  ⟨rfl, rfl⟩

/-- C1 (amended): with `quantize = true` the binary quantization
configuration (`always_ram = true`) is attached to exactly the four dense
spaces `384_vectors`, `768_vectors`, `1024_vectors` and `1536_vectors`,
and `512_vectors` is created with no quantization; with `quantize = false`
no dense space carries a quantization configuration. -/
theorem claim_C1_amended :
    (assocGet (collectionVectorParamsMap true) "384_vectors").map
        (fun p => p.quantization_config) = some (some ⟨some (.binary ⟨some true⟩)⟩)
    ∧ (assocGet (collectionVectorParamsMap true) "768_vectors").map
        (fun p => p.quantization_config) = some (some ⟨some (.binary ⟨some true⟩)⟩)
    ∧ (assocGet (collectionVectorParamsMap true) "1024_vectors").map
        (fun p => p.quantization_config) = some (some ⟨some (.binary ⟨some true⟩)⟩)
    ∧ (assocGet (collectionVectorParamsMap true) "1536_vectors").map
        (fun p => p.quantization_config) = some (some ⟨some (.binary ⟨some true⟩)⟩)
    ∧ (assocGet (collectionVectorParamsMap true) "512_vectors").map
        (fun p => p.quantization_config) = some none
    ∧ (assocGet (collectionVectorParamsMap false) "384_vectors").map
        (fun p => p.quantization_config) = some none
    ∧ (assocGet (collectionVectorParamsMap false) "512_vectors").map
        (fun p => p.quantization_config) = some none
    ∧ (assocGet (collectionVectorParamsMap false) "768_vectors").map
        (fun p => p.quantization_config) = some none
    ∧ (assocGet (collectionVectorParamsMap false) "1024_vectors").map
        (fun p => p.quantization_config) = some none
    ∧ (assocGet (collectionVectorParamsMap false) "1536_vectors").map
        (fun p => p.quantization_config) = some none := by
  refine ⟨rfl, rfl, rfl, rfl, rfl, rfl, rfl, rfl, rfl, rfl⟩

/-- C2 counterexample: the claim states that an update on an absent point
always returns a NotFound-style error and performs no write, regardless of
whether new metadata was supplied.  On the code, with new metadata
supplied and the point absent (the fetch returns an empty list), the call
proceeds and issues a payload overwrite (with an empty group-id list). -/
theorem claim_C2_counterexample :
    (update_qdrant_point_query (some chunkMetaEx) uuidNil none none uuidNil [] cfgEx
        (.ok [])).2
      = .ok (.overwritePayload "collection" [uuidToString uuidNil]
          [ ("tag_set", .list [.str ""]), ("link", .list [.str ""]),
            ("metadata", .obj []), ("time_stamp", .int 0),
            ("dataset_id", .str (uuidToString uuidNil)), ("group_ids", .list []) ]) :=
  rfl

/-- C2 (amended): every update first issues the point fetch by id (before
any write); when no new metadata is supplied and the point is absent, the
call fails with the NotFound-style `No metadata points found` error and
performs no write; when new metadata is supplied, absence of the point
never produces that error: the payload is built with group ids falling
back to the explicitly supplied list or else the empty list
(`updateFreshPayload`), and the call performs a payload overwrite when no
new vector is supplied, a vector-and-payload upsert when a new vector of
supported length is supplied, and fails only with the InvalidVectorSize
error when the new vector's length is unsupported. -/
theorem claim_C2_amended :
    ∀ (metadata : Option ChunkMetadata) (point_id : Uuid)
      (updated_vector : Option (List Float)) (group_ids : Option (List Uuid))
      (dataset_id : Uuid) (splade_vector : List (Nat × Float))
      (config : ServerDatasetConfiguration)
      (fetch_response : Except Unit (List RetrievedPoint)),
      ((update_qdrant_point_query metadata point_id updated_vector group_ids dataset_id
          splade_vector config fetch_response).1
        = ⟨config.QDRANT_COLLECTION_NAME, [uuidToString point_id], false, true⟩)
      ∧ (metadata = none → fetch_response = .ok [] →
          (update_qdrant_point_query metadata point_id updated_vector group_ids dataset_id
              splade_vector config fetch_response).2
            = .error (.BadRequest "No metadata points found"))
      ∧ (∀ m, metadata = some m → fetch_response = .ok [] →
          (updated_vector = none →
            (update_qdrant_point_query metadata point_id updated_vector group_ids dataset_id
                splade_vector config fetch_response).2
              = .ok (.overwritePayload config.QDRANT_COLLECTION_NAME [uuidToString point_id]
                  (updateFreshPayload m group_ids dataset_id)))
          ∧ (∀ v name, updated_vector = some v → vectorNameOfLen v.length = some name →
            (update_qdrant_point_query metadata point_id updated_vector group_ids dataset_id
                splade_vector config fetch_response).2
              = .ok (.upsert
                  { collection := config.QDRANT_COLLECTION_NAME
                    pointId := uuidToString point_id
                    vectors := [(name, .dense v), ("sparse_vectors", .sparse splade_vector)]
                    payload := updateFreshPayload m group_ids dataset_id
                    blocking := false }))
          ∧ (∀ v, updated_vector = some v → vectorNameOfLen v.length = none →
            (update_qdrant_point_query metadata point_id updated_vector group_ids dataset_id
                splade_vector config fetch_response).2
              = .error (.BadRequest "Invalid embedding vector size"))) := by
  intro metadata point_id updated_vector group_ids dataset_id splade_vector config fetch_response
  refine ⟨rfl, ?_, ?_⟩
  · rintro rfl rfl
    rfl
  · rintro m rfl rfl
    refine ⟨?_, ?_, ?_⟩
    · rintro rfl
      cases group_ids <;> rfl
    · rintro v name rfl hname
      cases group_ids <;>
        simp [update_qdrant_point_query, hname, updateFreshPayload]
    · rintro v rfl hnone
      simp [update_qdrant_point_query, hnone]

/-- C2 witness: the amended claim evaluated at a concrete absent point:
the NotFound-style error with no new metadata; with new metadata, the
overwrite carrying the supplied group ids, the upsert for a supported
new vector, and the InvalidVectorSize error for an unsupported one. -/
theorem claim_C2_witness :
    (update_qdrant_point_query none uuidNil none none uuidNil [] cfgEx (.ok [])).1
      = ⟨"collection", [uuidToString uuidNil], false, true⟩
    ∧ (update_qdrant_point_query none uuidNil none none uuidNil [] cfgEx (.ok [])).2
      = .error (.BadRequest "No metadata points found")
    ∧ (update_qdrant_point_query (some chunkMetaEx) uuidNil none (some [uuidA]) uuidNil []
          cfgEx (.ok [])).2
      = .ok (.overwritePayload "collection" [uuidToString uuidNil]
          (updateFreshPayload chunkMetaEx (some [uuidA]) uuidNil))
    ∧ (update_qdrant_point_query (some chunkMetaEx) uuidNil
          (some (List.replicate 512 0.0)) none uuidNil [] cfgEx (.ok [])).2
      = .ok (.upsert
          { collection := "collection"
            pointId := uuidToString uuidNil
            vectors := [("512_vectors", .dense (List.replicate 512 0.0)),
              ("sparse_vectors", .sparse [])]
            payload := updateFreshPayload chunkMetaEx none uuidNil
            blocking := false })
    ∧ (update_qdrant_point_query (some chunkMetaEx) uuidNil (some [0.0]) none uuidNil []
          cfgEx (.ok [])).2
      = .error (.BadRequest "Invalid embedding vector size") :=
  ⟨(claim_C2_amended none uuidNil none none uuidNil [] cfgEx (.ok [])).1,
   (claim_C2_amended none uuidNil none none uuidNil [] cfgEx (.ok [])).2.1 rfl rfl,
   ((claim_C2_amended (some chunkMetaEx) uuidNil none (some [uuidA]) uuidNil [] cfgEx
       (.ok [])).2.2 chunkMetaEx rfl rfl).1 rfl,
   ((claim_C2_amended (some chunkMetaEx) uuidNil (some (List.replicate 512 0.0)) none uuidNil
       [] cfgEx (.ok [])).2.2 chunkMetaEx rfl rfl).2.1 (List.replicate 512 0.0) "512_vectors"
     rfl (by rw [List.length_replicate]; rfl),
   ((claim_C2_amended (some chunkMetaEx) uuidNil (some [0.0]) none uuidNil [] cfgEx
       (.ok [])).2.2 chunkMetaEx rfl rfl).2.2 [0.0] rfl rfl⟩

/-- C4 counterexample: the claim states the offset is exactly
`(page - 1) * 10` for every page.  The source computes it in `u64`
arithmetic, which wraps: at `page = 2 ^ 63 + 1` the value
`(page - 1) * 10 = 92233720368547758080` exceeds `2 ^ 64 - 1` and the
offset actually carried by the request is `0`. -/
theorem claim_C4_counterexample :
    (search_qdrant_query (2 ^ 63 + 1) .mk 5 none (.sparse []) cfgEx).map (fun r => r.offset)
      = .ok (some 0)
    ∧ (2 ^ 63 + 1 - 1) * 10 = 92233720368547758080 :=
  ⟨rfl, by norm_num⟩

/-- C4 (amended): for every page `p ≥ 1` below `2 ^ 64` such that
`(p - 1) * 10` fits in a `u64`, `search_qdrant_query` sends the backend an
offset of exactly `(p - 1) * 10` and a hit limit of exactly the given
limit, for both dense and sparse query vectors (beyond that bound the
`u64` computation wraps modulo `2 ^ 64`). -/
theorem claim_C4_amended :
    ∀ (page : Nat) (filter : Filter) (limit : Nat) (score_threshold : Option Float)
      (config : ServerDatasetConfiguration),
      1 ≤ page → page < 2 ^ 64 → (page - 1) * 10 < 2 ^ 64 →
      (∀ (v : List Float) (name : String), vectorNameOfLen v.length = some name →
        ((search_qdrant_query page filter limit score_threshold (.dense v) config).map
            (fun r => r.offset) = .ok (some ((page - 1) * 10)))
        ∧ ((search_qdrant_query page filter limit score_threshold (.dense v) config).map
            (fun r => r.limit) = .ok limit))
      ∧ (∀ sv : List (Nat × Float),
        ((search_qdrant_query page filter limit score_threshold (.sparse sv) config).map
            (fun r => r.offset) = .ok (some ((page - 1) * 10)))
        ∧ ((search_qdrant_query page filter limit score_threshold (.sparse sv) config).map
            (fun r => r.limit) = .ok limit)) := by
  intro page filter limit score_threshold config h1 h2 h3
  have hoff : mul64 (sub64 page 1) 10 = (page - 1) * 10 := by
    rw [sub64_exact page h1 h2, mul64_exact _ _ h3]
  constructor
  · intro v name hname
    constructor
    · simp [search_qdrant_query, vectorNameOf, hname, hoff, Except.map]
    · simp [search_qdrant_query, vectorNameOf, hname, Except.map]
  · intro sv
    constructor
    · simp [search_qdrant_query, vectorNameOf, hoff, Except.map]
    · simp [search_qdrant_query, vectorNameOf, Except.map]

/-- C4 witness: the amended claim evaluated at `page = 1` and `page = 2`
with `limit = 5`: the offsets are `0` and `10` (not `5`), for a sparse
query and for a dense 384-length query. -/
theorem claim_C4_witness :
    ((search_qdrant_query 1 .mk 5 none (.sparse []) cfgEx).map (fun r => r.offset)
        = .ok (some 0)
      ∧ (search_qdrant_query 1 .mk 5 none (.sparse []) cfgEx).map (fun r => r.limit)
        = .ok 5)
    ∧ ((search_qdrant_query 2 .mk 5 none (.sparse []) cfgEx).map (fun r => r.offset)
        = .ok (some 10)
      ∧ (search_qdrant_query 2 .mk 5 none (.sparse []) cfgEx).map (fun r => r.limit)
        = .ok 5)
    ∧ ((search_qdrant_query 2 .mk 5 none (.dense (List.replicate 384 0.0)) cfgEx).map
          (fun r => r.offset) = .ok (some 10)
      ∧ (search_qdrant_query 2 .mk 5 none (.dense (List.replicate 384 0.0)) cfgEx).map
          (fun r => r.limit) = .ok 5) :=
  ⟨(claim_C4_amended 1 .mk 5 none cfgEx (by norm_num) (by norm_num) (by norm_num)).2 [],
   (claim_C4_amended 2 .mk 5 none cfgEx (by norm_num) (by norm_num) (by norm_num)).2 [],
   (claim_C4_amended 2 .mk 5 none cfgEx (by norm_num) (by norm_num) (by norm_num)).1
     (List.replicate 384 0.0) "384_vectors" (by rw [List.length_replicate]; rfl)⟩

/-- C5 counterexample: the claim states the group limit sent to the
backend is exactly `limit * page` for every page and limit.  The source
computes `limit * page as u32`: the `u64` page is silently truncated to 32
bits by the cast, so at `page = 2 ^ 32 + 1` and `limit = 5` the request
carries limit `5`, not `5 * (2 ^ 32 + 1) = 21474836485`. -/
theorem claim_C5_counterexample :
    (search_over_groups_query (2 ^ 32 + 1) .mk 5 none 10 (.sparse []) cfgEx).map
        (fun r => r.limit)
      = .ok 5
    ∧ 5 * (2 ^ 32 + 1) = 21474836485 :=
  ⟨rfl, by norm_num⟩

/-- C5 (amended): for every page `p` below `2 ^ 32` and limit `l` with
`l * p` below `2 ^ 32`, `search_over_groups_query` sends the backend a
group limit of exactly `l * p`, for both dense and sparse query vectors;
the grouped-search request carries no offset field.  Beyond those bounds
the `u32` cast of the page and the `u32` product truncate modulo
`2 ^ 32`. -/
theorem claim_C5_amended :
    ∀ (page : Nat) (filter : Filter) (limit : Nat) (score_threshold : Option Float)
      (group_size : Nat) (config : ServerDatasetConfiguration),
      page < 2 ^ 32 → limit * page < 2 ^ 32 →
      (∀ (v : List Float) (name : String), vectorNameOfLen v.length = some name →
        ((search_over_groups_query page filter limit score_threshold group_size
            (.dense v) config).map (fun r => r.limit) = .ok (limit * page))
        ∧ ((search_over_groups_query page filter limit score_threshold group_size
            (.dense v) config).map (fun r => r.group_by) = .ok "group_ids"))
      ∧ (∀ sv : List (Nat × Float),
        ((search_over_groups_query page filter limit score_threshold group_size
            (.sparse sv) config).map (fun r => r.limit) = .ok (limit * page))
        ∧ ((search_over_groups_query page filter limit score_threshold group_size
            (.sparse sv) config).map (fun r => r.group_by) = .ok "group_ids")) := by
  intro page filter limit score_threshold group_size config h1 h2
  have hlim : mul32 limit (cast32 page) = limit * page := mul32_cast32_exact _ _ h1 h2
  constructor
  · intro v name hname
    constructor
    · simp [search_over_groups_query, vectorNameOf, hname, hlim, Except.map]
    · simp [search_over_groups_query, vectorNameOf, hname, Except.map]
  · intro sv
    constructor
    · simp [search_over_groups_query, vectorNameOf, hlim, Except.map]
    · simp [search_over_groups_query, vectorNameOf, Except.map]

/-- C5 witness: the amended claim evaluated at `page = 2`, `limit = 5`:
the backend group limit is `10`, not `5`, for a sparse query and for a
dense 384-length query. -/
theorem claim_C5_witness :
    ((search_over_groups_query 2 .mk 5 none 10 (.sparse []) cfgEx).map (fun r => r.limit)
        = .ok 10
      ∧ (search_over_groups_query 2 .mk 5 none 10 (.sparse []) cfgEx).map
          (fun r => r.group_by) = .ok "group_ids")
    ∧ ((search_over_groups_query 2 .mk 5 none 10
          (.dense (List.replicate 384 0.0)) cfgEx).map (fun r => r.limit) = .ok 10
      ∧ (search_over_groups_query 2 .mk 5 none 10
          (.dense (List.replicate 384 0.0)) cfgEx).map (fun r => r.group_by)
        = .ok "group_ids") :=
  ⟨(claim_C5_amended 2 .mk 5 none 10 cfgEx (by norm_num) (by norm_num)).2 [],
   (claim_C5_amended 2 .mk 5 none 10 cfgEx (by norm_num) (by norm_num)).1
     (List.replicate 384 0.0) "384_vectors" (by rw [List.length_replicate]; rfl)⟩

/-- C7: in the payload built by the insert, an absent `tag_set` or `link`
defaults to the empty string and is then comma-split, yielding a list with
one empty-string element (not an empty list); an absent `metadata` becomes
an empty object; an absent `time_stamp` becomes the zero/epoch timestamp;
an absent `group_ids` argument becomes an empty list. -/
theorem claim_C7 :
    ∀ (m : ChunkMetadata) (group_ids : Option (List Uuid)),
      (m.tag_set = none →
        (createPointPayload m group_ids).get "tag_set" = some (.list [.str ""]))
      ∧ (m.link = none →
        (createPointPayload m group_ids).get "link" = some (.list [.str ""]))
      ∧ (m.metadata = none →
        (createPointPayload m group_ids).get "metadata" = some (.obj []))
      ∧ (m.time_stamp = none →
        (createPointPayload m group_ids).get "time_stamp" = some (.int 0))
      ∧ (group_ids = none →
        (createPointPayload m group_ids).get "group_ids" = some (.list [])) := by
  intro m group_ids
  refine ⟨?_, ?_, ?_, ?_, ?_⟩ <;> intro h <;>
    simp [createPointPayload, Payload.get, assocGet, h, metadataDefault, timeStampDefault,
      splitComma, splitOnChar]

/-- C7 witness: the defaults evaluated on a metadata value with every
optional field absent. -/
theorem claim_C7_witness :
    (createPointPayload chunkMetaEx none).get "tag_set" = some (.list [.str ""])
    ∧ (createPointPayload chunkMetaEx none).get "link" = some (.list [.str ""])
    ∧ (createPointPayload chunkMetaEx none).get "metadata" = some (.obj [])
    ∧ (createPointPayload chunkMetaEx none).get "time_stamp" = some (.int 0)
    ∧ (createPointPayload chunkMetaEx none).get "group_ids" = some (.list []) :=
  ⟨(claim_C7 chunkMetaEx none).1 rfl, (claim_C7 chunkMetaEx none).2.1 rfl,
   (claim_C7 chunkMetaEx none).2.2.1 rfl, (claim_C7 chunkMetaEx none).2.2.2.1 rfl,
   (claim_C7 chunkMetaEx none).2.2.2.2 rfl⟩

/-- C8: an update with no new metadata (and no new vector) rebuilds the
payload from the fetched point's current `tag_set`, `link`, `metadata`,
`time_stamp`, `dataset_id` and `group_ids` verbatim, so a point whose
stored payload is an insert-built payload is overwritten with exactly that
same payload (the `group_ids` argument of the update is ignored on this
path). -/
theorem claim_C8 :
    ∀ (m : ChunkMetadata) (gids : Option (List Uuid)) (group_ids_arg : Option (List Uuid))
      (point_id dataset_id : Uuid) (splade_vector : List (Nat × Float))
      (config : ServerDatasetConfiguration),
      (update_qdrant_point_query none point_id none group_ids_arg dataset_id splade_vector
          config (.ok [⟨createPointPayload m gids⟩])).2
        = .ok (.overwritePayload config.QDRANT_COLLECTION_NAME [uuidToString point_id]
            (createPointPayload m gids)) := by
  intros
  rfl

/-- C9: collection creation is not idempotent: if the backend reports the
collection as present, the call fails with the `Collection already exists`
error and issues no create request (the trace is the info probe alone); if
the backend rejects creation with a message containing `already exists`,
the call surfaces the same error. -/
theorem claim_C9 :
    ∀ (name : String) (quantize : Bool) (create_response : Except String Unit)
      (index_response : String → Except Unit Unit),
      (∀ info : CollectionInfoResponse, info.result.isSome = true →
        create_new_qdrant_collection_query name quantize (.ok info) create_response
            index_response
          = ([.collectionInfo name], .error (.BadRequest "Collection already exists")))
      ∧ (∀ (info_response : Except Unit CollectionInfoResponse) (msg : String),
          strContains msg "already exists" = true →
          (create_new_qdrant_collection_query name quantize info_response (.error msg)
              index_response).2
            = .error (.BadRequest "Collection already exists")) := by
  intro name quantize create_response index_response
  constructor
  · intro info hi
    simp [create_new_qdrant_collection_query, hi]
  · intro info_response msg hmsg
    match info_response with
    | .error _ =>
      simp [create_new_qdrant_collection_query, hmsg]
    | .ok info =>
      by_cases hi : info.result.isSome = true
      · simp [create_new_qdrant_collection_query, hi]
      · simp [create_new_qdrant_collection_query, hi, hmsg]

/-- C9 witness: the two already-exists paths evaluated concretely: the
backend reports the collection present; the backend rejects creation with
an `already exists` message. -/
theorem claim_C9_witness :
    create_new_qdrant_collection_query "collection" false (.ok ⟨some ()⟩) (.ok ())
        (fun _ => .ok ())
      = ([.collectionInfo "collection"], .error (.BadRequest "Collection already exists"))
    ∧ (create_new_qdrant_collection_query "collection" false (.error ())
          (.error "collection with this name already exists") (fun _ => .ok ())).2
      = .error (.BadRequest "Collection already exists") :=
  ⟨(claim_C9 "collection" false (.ok ()) (fun _ => .ok ())).1 ⟨some ()⟩ rfl,
   (claim_C9 "collection" false (.error "collection with this name already exists")
       (fun _ => .ok ())).2 (.error ())
     "collection with this name already exists" (by decide)⟩

/-- C10: for backend responses whose optional `result` field is absent
although the call itself did not error, `search_over_groups_query`,
`recommend_qdrant_groups_query` and `get_point_count_qdrant_query` panic
(`unwrap` / `expect` on the missing result) instead of returning an error
value; for every response that does carry a result they return `ok` with
the normalized results (the count for the count query). -/
theorem claim_C10 :
    (search_over_groups_response (.ok ⟨none⟩)
        = .panics "called Option::unwrap() on a None value")
    ∧ (∀ r, search_over_groups_response (.ok ⟨some r⟩) = .ok (normalizeGroups r.groups))
    ∧ (recommend_qdrant_groups_response (.ok ⟨none⟩)
        = .panics "called Option::unwrap() on a None value")
    ∧ (∀ r, recommend_qdrant_groups_response (.ok ⟨some r⟩) = .ok (normalizeGroups r.groups))
    ∧ (get_point_count_qdrant_query (.ok ⟨none⟩) = .panics "Failed to get result from qdrant")
    ∧ (∀ r, get_point_count_qdrant_query (.ok ⟨some r⟩) = .ok r.count) :=
  ⟨rfl, fun _ => rfl, rfl, fun _ => rfl, rfl, fun _ => rfl⟩

/-- C6: `add_bookmark_to_qdrant_query` is not idempotent on the group-id
list: the computed list is the decoded existing list with the new id
appended, so adding an id already present yields a second copy and adding
the same id twice (through the rebuilt payload) yields two entries.
`remove_bookmark_from_qdrant_query` is idempotent: it removes all entries
equal to the target id, so removing an absent id leaves the decoded list
unchanged. -/
theorem claim_C6 :
    ∀ (p : Payload) (g : Uuid) (xs : List QValue),
      p.get "group_ids" = some (.list xs) →
      (addBookmarkGroupIds p g = some (xs.map decodeUuid ++ [g]))
      ∧ (addBookmarkGroupIds (bookmarkNewPayload p (xs.map decodeUuid ++ [g])) g
          = some (xs.map decodeUuid ++ [g] ++ [g]))
      ∧ (List.count g (xs.map decodeUuid ++ [g] ++ [g])
          = List.count g (xs.map decodeUuid) + 2)
      ∧ (removeBookmarkGroupIds p g = some ((xs.map decodeUuid).filter fun x => x != g))
      ∧ (g ∉ xs.map decodeUuid → removeBookmarkGroupIds p g = some (xs.map decodeUuid)) := by
  intro p g xs h
  refine ⟨?_, ?_, ?_, ?_, ?_⟩
  · simp [addBookmarkGroupIds, h, QValue.iterList]
  · have hget : (bookmarkNewPayload p (xs.map decodeUuid ++ [g])).get "group_ids"
        = some (.list ((((xs.map decodeUuid ++ [g])).map fun x => uuidToString x).map .str)) :=
      rfl
    simp only [addBookmarkGroupIds, hget, QValue.iterList, Option.map_some']
    simp [List.map_map, Function.comp_def, decodeUuid_str_round]
  · simp [List.count_append]
  · simp [removeBookmarkGroupIds, h, QValue.iterList]
  · intro hg
    have hall : ∀ a ∈ xs.map decodeUuid, (a != g) = true := by
      intro a ha
      simp only [bne_iff_ne, ne_eq]
      exact fun e => hg (e ▸ ha)
    simp [removeBookmarkGroupIds, h, QValue.iterList, List.filter_eq_self.mpr hall]

/-- C6 witness: the group-id edits evaluated on a concrete payload whose
stored list holds `uuidA`: adding `uuidA` again yields two copies, and
removing the absent `uuidB` leaves the decoded list unchanged. -/
theorem claim_C6_witness :
    payloadEx.get "group_ids" = some (.list [.str (uuidToString uuidA)])
    ∧ addBookmarkGroupIds payloadEx uuidA = some [uuidA, uuidA]
    ∧ addBookmarkGroupIds (bookmarkNewPayload payloadEx
          ([(QValue.str (uuidToString uuidA))].map decodeUuid ++ [uuidA])) uuidA
        = some ([(QValue.str (uuidToString uuidA))].map decodeUuid ++ [uuidA] ++ [uuidA])
    ∧ removeBookmarkGroupIds payloadEx uuidB = some [uuidA] := by
  have h := claim_C6 payloadEx uuidA [.str (uuidToString uuidA)] rfl
  have h2 := claim_C6 payloadEx uuidB [.str (uuidToString uuidA)] rfl
  refine ⟨rfl, ?_, h.2.1, ?_⟩
  · rw [h.1]
    decide
  · rw [h2.2.2.2.2 (by decide)]
    decide

/-- C3 counterexample: the claim states that on an unsupported dense
vector length every listed operation (update included) returns the
InvalidVectorSize error before contacting the backend.  On the code,
`update_qdrant_point_query` issues its point fetch — a backend read —
before the vector-size check: at a concrete length-3 vector the call both
returns the InvalidVectorSize error and has already issued the fetch
request. -/
theorem claim_C3_counterexample :
    (update_qdrant_point_query (some chunkMetaEx) uuidNil (some [0.0, 0.0, 0.0]) none uuidNil
        [] cfgEx (.ok [])).2 = .error (.BadRequest "Invalid embedding vector size")
    ∧ (update_qdrant_point_query (some chunkMetaEx) uuidNil (some [0.0, 0.0, 0.0]) none uuidNil
        [] cfgEx (.ok [])).1 = ⟨"collection", [uuidToString uuidNil], false, true⟩ :=
  ⟨rfl, rfl⟩

/-- C3 (amended): for every dense vector whose length is one of
384/512/768/1024/1536, insert, update, search and group search select the
unique space name `<length>_vectors`; for any other length insert, search,
group search and recommend return the InvalidVectorSize error without
emitting any backend request.  Update reaches its vector-size check only
after its initial point fetch (a backend read) and only when the payload
was constructible — new metadata supplied, or the point present: there an
unsupported length yields the InvalidVectorSize error before any write;
when no new metadata is supplied and the point is absent, update fails
with the NotFound-style `No metadata points found` error instead,
whatever the new vector's length, and the size check is never reached.
Recommend and grouped recommend apply the same mapping and failure rule
to the configured embedding size instead of an input vector. -/
theorem claim_C3_amended :
    (∀ n ∈ supportedSizes, vectorNameOfLen n = some (Nat.repr n ++ "_vectors"))
    ∧ (∀ n, n ∉ supportedSizes → vectorNameOfLen n = none)
    ∧ (∀ (point_id : Uuid) (v : List Float) (m : ChunkMetadata) (sp : List (Nat × Float))
        (gids : Option (List Uuid)) (config : ServerDatasetConfiguration),
        (∀ name, vectorNameOfLen v.length = some name →
          ∃ req, create_new_qdrant_point_query point_id v m sp gids config = .ok req
            ∧ req.vectors = [(name, .dense v), ("sparse_vectors", .sparse sp)])
        ∧ (vectorNameOfLen v.length = none →
          create_new_qdrant_point_query point_id v m sp gids config
            = .error (.BadRequest "Invalid embedding vector size")))
    ∧ (∀ (metadata : ChunkMetadata) (point_id : Uuid) (v : List Float)
        (gids : Option (List Uuid)) (ds : Uuid) (sp : List (Nat × Float))
        (config : ServerDatasetConfiguration) (pts : List RetrievedPoint),
        (∀ name, vectorNameOfLen v.length = some name →
          ∃ req, (update_qdrant_point_query (some metadata) point_id (some v) gids ds sp
              config (.ok pts)).2 = .ok (.upsert req)
            ∧ req.vectors = [(name, .dense v), ("sparse_vectors", .sparse sp)])
        ∧ (vectorNameOfLen v.length = none →
          ((update_qdrant_point_query (some metadata) point_id (some v) gids ds sp config
              (.ok pts)).2 = .error (.BadRequest "Invalid embedding vector size"))
          ∧ ((update_qdrant_point_query (some metadata) point_id (some v) gids ds sp config
              (.ok pts)).1
            = ⟨config.QDRANT_COLLECTION_NAME, [uuidToString point_id], false, true⟩)))
    ∧ (∀ (point_id : Uuid) (v : List Float) (gids : Option (List Uuid)) (ds : Uuid)
        (sp : List (Nat × Float)) (config : ServerDatasetConfiguration)
        (pt : RetrievedPoint) (rest : List RetrievedPoint),
        (∀ name, vectorNameOfLen v.length = some name →
          ∃ req, (update_qdrant_point_query none point_id (some v) gids ds sp config
              (.ok (pt :: rest))).2 = .ok (.upsert req)
            ∧ req.vectors = [(name, .dense v), ("sparse_vectors", .sparse sp)])
        ∧ (vectorNameOfLen v.length = none →
          (update_qdrant_point_query none point_id (some v) gids ds sp config
              (.ok (pt :: rest))).2
            = .error (.BadRequest "Invalid embedding vector size")))
    ∧ (∀ (point_id : Uuid) (v : List Float) (gids : Option (List Uuid)) (ds : Uuid)
        (sp : List (Nat × Float)) (config : ServerDatasetConfiguration),
        (update_qdrant_point_query none point_id (some v) gids ds sp config (.ok [])).2
          = .error (.BadRequest "No metadata points found"))
    ∧ (∀ (page : Nat) (filter : Filter) (limit : Nat) (st : Option Float) (v : List Float)
        (config : ServerDatasetConfiguration),
        (∀ name, vectorNameOfLen v.length = some name →
          (search_qdrant_query page filter limit st (.dense v) config).map
            (fun r => r.vector_name) = .ok (some name))
        ∧ (vectorNameOfLen v.length = none →
          search_qdrant_query page filter limit st (.dense v) config
            = .error ⟨"Invalid embedding vector size"⟩))
    ∧ (∀ (page : Nat) (filter : Filter) (limit : Nat) (st : Option Float) (gs : Nat)
        (v : List Float) (config : ServerDatasetConfiguration),
        (∀ name, vectorNameOfLen v.length = some name →
          (search_over_groups_query page filter limit st gs (.dense v) config).map
            (fun r => r.vector_name) = .ok (some name))
        ∧ (vectorNameOfLen v.length = none →
          search_over_groups_query page filter limit st gs (.dense v) config
            = .error ⟨"Invalid embedding vector size"⟩))
    ∧ (∀ (pos neg : List Uuid) (filter : Filter) (limit : Nat)
        (config : ServerDatasetConfiguration),
        (∀ name, vectorNameOfLen config.EMBEDDING_SIZE = some name →
          (recommend_qdrant_query pos neg filter limit config).map (fun r => r.usingVector)
            = .ok (some name))
        ∧ (vectorNameOfLen config.EMBEDDING_SIZE = none →
          recommend_qdrant_query pos neg filter limit config
            = .error ⟨"Invalid embedding vector size"⟩))
    ∧ (∀ (pos neg : List Uuid) (filter : Filter) (limit : Nat) (gs : Nat)
        (config : ServerDatasetConfiguration),
        (∀ name, vectorNameOfLen config.EMBEDDING_SIZE = some name → limit < 2 ^ 32 →
          ∃ req, recommend_qdrant_groups_query pos neg filter limit gs config = .ok req
            ∧ req.usingVector = some name)
        ∧ (vectorNameOfLen config.EMBEDDING_SIZE = none →
          recommend_qdrant_groups_query pos neg filter limit gs config
            = .err ⟨"Invalid embedding vector size"⟩)) := by
  refine ⟨?_, ?_, ?_, ?_, ?_, ?_, ?_, ?_, ?_, ?_⟩
  · intro n hn
    simp only [supportedSizes, List.mem_cons, List.not_mem_nil, or_false] at hn
    rcases hn with rfl | rfl | rfl | rfl | rfl <;> rfl
  · intro n hn
    unfold vectorNameOfLen
    split <;> simp_all [supportedSizes]
  · intro point_id v m sp gids config
    constructor
    · intro name hname
      simp only [create_new_qdrant_point_query, hname]
      exact ⟨_, rfl, rfl⟩
    · intro hnone
      simp [create_new_qdrant_point_query, hnone]
  · intro metadata point_id v gids ds sp config pts
    constructor
    · intro name hname
      simp only [update_qdrant_point_query, hname]
      exact ⟨_, rfl, rfl⟩
    · intro hnone
      exact ⟨by simp [update_qdrant_point_query, hnone], rfl⟩
  · intro point_id v gids ds sp config pt rest
    constructor
    · intro name hname
      simp only [update_qdrant_point_query, hname]
      exact ⟨_, rfl, rfl⟩
    · intro hnone
      simp [update_qdrant_point_query, hnone]
  · intro point_id v gids ds sp config
    rfl
  · intro page filter limit st v config
    constructor
    · intro name hname
      simp [search_qdrant_query, vectorNameOf, hname, Except.map]
    · intro hnone
      simp [search_qdrant_query, vectorNameOf, hnone]
  · intro page filter limit st gs v config
    constructor
    · intro name hname
      simp [search_over_groups_query, vectorNameOf, hname, Except.map]
    · intro hnone
      simp [search_over_groups_query, vectorNameOf, hnone]
  · intro pos neg filter limit config
    constructor
    · intro name hname
      simp [recommend_qdrant_query, hname, Except.map]
    · intro hnone
      simp [recommend_qdrant_query, hnone]
  · intro pos neg filter limit gs config
    constructor
    · intro name hname hlim
      simp only [recommend_qdrant_groups_query, hname, if_pos hlim]
      exact ⟨_, rfl, rfl⟩
    · intro hnone
      simp [recommend_qdrant_groups_query, hnone]

/-- C3 witness: the amended claim evaluated on concrete vectors of
supported lengths 384/768/1024/1536 and unsupported lengths 1, 3 and 400,
on the update's three payload situations (metadata supplied, point
present, and neither — where the NotFound-style error precedes the size
check), and on configured embedding sizes 384 and 3. -/
theorem claim_C3_witness :
    vectorNameOfLen 384 = some (Nat.repr 384 ++ "_vectors")
    ∧ vectorNameOfLen 400 = none
    ∧ (∃ req, create_new_qdrant_point_query uuidNil (List.replicate 384 0.0) chunkMetaEx []
          none cfgEx = .ok req
        ∧ req.vectors = [("384_vectors", .dense (List.replicate 384 0.0)),
            ("sparse_vectors", .sparse [])])
    ∧ create_new_qdrant_point_query uuidNil [0.0] chunkMetaEx [] none cfgEx
        = .error (.BadRequest "Invalid embedding vector size")
    ∧ (∃ req, (update_qdrant_point_query (some chunkMetaEx) uuidNil
          (some (List.replicate 768 0.0)) none uuidNil [] cfgEx (.ok [])).2 = .ok (.upsert req)
        ∧ req.vectors = [("768_vectors", .dense (List.replicate 768 0.0)),
            ("sparse_vectors", .sparse [])])
    ∧ (∃ req, (update_qdrant_point_query none uuidNil
          (some (List.replicate 768 0.0)) none uuidNil [] cfgEx
          (.ok [⟨[]⟩])).2 = .ok (.upsert req)
        ∧ req.vectors = [("768_vectors", .dense (List.replicate 768 0.0)),
            ("sparse_vectors", .sparse [])])
    ∧ (update_qdrant_point_query none uuidNil (some [0.0]) none uuidNil [] cfgEx
          (.ok [⟨[]⟩])).2 = .error (.BadRequest "Invalid embedding vector size")
    ∧ (update_qdrant_point_query none uuidNil (some [0.0]) none uuidNil [] cfgEx (.ok [])).2
        = .error (.BadRequest "No metadata points found")
    ∧ (search_qdrant_query 1 .mk 5 none (.dense (List.replicate 1024 0.0)) cfgEx).map
        (fun r => r.vector_name) = .ok (some "1024_vectors")
    ∧ search_qdrant_query 1 .mk 5 none (.dense [0.0]) cfgEx
        = .error ⟨"Invalid embedding vector size"⟩
    ∧ (search_over_groups_query 1 .mk 5 none 10 (.dense (List.replicate 1536 0.0)) cfgEx).map
        (fun r => r.vector_name) = .ok (some "1536_vectors")
    ∧ (recommend_qdrant_query [] [] .mk 5 cfgEx).map (fun r => r.usingVector)
        = .ok (some "384_vectors")
    ∧ recommend_qdrant_query [] [] .mk 5 ⟨"collection", "url", "key", 3⟩
        = .error ⟨"Invalid embedding vector size"⟩
    ∧ (∃ req, recommend_qdrant_groups_query [] [] .mk 5 10 cfgEx = .ok req
        ∧ req.usingVector = some "384_vectors") :=
  ⟨claim_C3_amended.1 384 (by decide),
   claim_C3_amended.2.1 400 (by decide),
   (claim_C3_amended.2.2.1 uuidNil (List.replicate 384 0.0) chunkMetaEx [] none cfgEx).1
     "384_vectors" (by rw [List.length_replicate]; rfl),
   (claim_C3_amended.2.2.1 uuidNil [0.0] chunkMetaEx [] none cfgEx).2 rfl,
   (claim_C3_amended.2.2.2.1 chunkMetaEx uuidNil (List.replicate 768 0.0) none uuidNil []
       cfgEx []).1 "768_vectors" (by rw [List.length_replicate]; rfl),
   (claim_C3_amended.2.2.2.2.1 uuidNil (List.replicate 768 0.0) none uuidNil [] cfgEx
       ⟨[]⟩ []).1 "768_vectors" (by rw [List.length_replicate]; rfl),
   (claim_C3_amended.2.2.2.2.1 uuidNil [0.0] none uuidNil [] cfgEx ⟨[]⟩ []).2 rfl,
   claim_C3_amended.2.2.2.2.2.1 uuidNil [0.0] none uuidNil [] cfgEx,
   (claim_C3_amended.2.2.2.2.2.2.1 1 .mk 5 none (List.replicate 1024 0.0) cfgEx).1
     "1024_vectors" (by rw [List.length_replicate]; rfl),
   (claim_C3_amended.2.2.2.2.2.2.1 1 .mk 5 none [0.0] cfgEx).2 rfl,
   (claim_C3_amended.2.2.2.2.2.2.2.1 1 .mk 5 none 10 (List.replicate 1536 0.0) cfgEx).1
     "1536_vectors" (by rw [List.length_replicate]; rfl),
   (claim_C3_amended.2.2.2.2.2.2.2.2.1 [] [] .mk 5 cfgEx).1 "384_vectors" rfl,
   (claim_C3_amended.2.2.2.2.2.2.2.2.1 [] [] .mk 5 ⟨"collection", "url", "key", 3⟩).2 rfl,
   (claim_C3_amended.2.2.2.2.2.2.2.2.2 [] [] .mk 5 10 cfgEx).1 "384_vectors" rfl
     (by norm_num)⟩

end QdrantOperator
